import Mathlib

/-!
Verification of the `lad` (lambda-alias-deployment) canary progression core.

Shallow embedding of the Go sources:
* `internal/exitcode`        — process exit codes
* `internal/aws/lambda.go`   — `classifyError`, `CheckCanaryActive`, and the
  alias-mutating service calls (`UpdateAlias`, `ConfigureCanary`)
* `cmd/strategy.go`          — the canary strategy table (the revision with the
  six strategies `canary0` … `canary100`, which the repository README documents)
* `cmd/canary.go`            — `runCanary` (the revision that allows `canary0`
  when `live == latest`)
* `cmd/promote.go`           — `runPromote`
* the rollback command       — `runRollback` and the rollback audit log
* `cmd/auto.go`              — `runAuto` (the `--percent` revision)
* `cmd/deploy.go`            — the canary-active gate at the top of `runDeploy`

Error strings are `List Char`; the alias service is modelled by an oracle
`SvcEnv` that assigns to every service call either success (`none`) or an
error message (`some msg`).  Commands return a `CmdResult` recording the final
alias state, the process exit code, the ordered trace of service calls that
were attempted, warnings, sleeps, and the rollback log file contents.
-/

namespace Lad

/-! ### internal/exitcode -/

namespace exitcode

def Success : Nat := 0

def ParamError : Nat := 1

def AWSError : Nat := 2

def ResourceNotFound : Nat := 3

def NetworkError : Nat := 4

end exitcode

/-! ### internal/aws/lambda.go : classifyError -/

/-- The network keyword list of `classifyError` (checked first). -/
def networkKeywords : List (List Char) :=
  [ "unable to locate credentials",
    "could not connect",
    "connection refused",
    "network",
    "timeout",
    "timed out",
    "unreachable" ].map String.toList

/-- The resource-not-found keyword list of `classifyError` (checked second). -/
def resourceNotFoundKeywords : List (List Char) :=
  [ "resourcenotfoundexception",
    "does not exist",
    "not found",
    "cannot find" ].map String.toList

/-- Go `strings.ToLower` on the message, modelled characterwise. -/
def lowerMsg (msg : List Char) : List Char := msg.map Char.toLower

/-- Go `strings.Contains msg kw`, i.e. `kw` occurs as a contiguous substring. -/
def containsSub (msg kw : List Char) : Bool := decide (kw <:+: msg)

/-- `classifyError` from `internal/aws/lambda.go`: `nil` error is success;
otherwise lowercase the message, check network keywords first, then
resource-not-found keywords, else generic AWS error. -/
def classifyError : Option (List Char) → Nat
  | none => exitcode.Success
  | some msg =>
    let m := lowerMsg msg
    if networkKeywords.any (fun kw => containsSub m kw) then
      exitcode.NetworkError
    else if resourceNotFoundKeywords.any (fun kw => containsSub m kw) then
      exitcode.ResourceNotFound
    else
      exitcode.AWSError

/-! ### Alias state, service calls and the service oracle -/

/-- The three alias pointers plus the (at most one) routing entry on `live`.
A routing entry `(v, w)` sends fraction `w` of traffic to canary version `v`. -/
structure AliasState where
  live : String
  previous : String
  latest : String
  liveRouting : Option (String × ℚ)
deriving DecidableEq, Repr

/-- One call against the alias service.  `getAlias` is a read;
`updateAlias` sets an alias version and clears its routing
(`RoutingConfig` with the empty weight map); `configureCanary` sets the
primary version together with a single routing entry. -/
inductive SvcCall where
  | getAlias (aliasName : String)
  | updateAlias (aliasName version : String)
  | configureCanary (aliasName mainVersion canaryVersion : String) (weight : ℚ)
deriving DecidableEq, Repr

/-- The service oracle: for each call either success (`none`) or the
error message the service returns (`some msg`). -/
def SvcEnv : Type := SvcCall → Option (List Char)

/-- The all-success oracle. -/
def okEnv : SvcEnv := fun _ => none

/-- Effect of a successful mutating call on the alias state.  `updateAlias`
clears routing; only the `live` alias carries routing in this model.
Reads leave the state unchanged. -/
def applyWrite (st : AliasState) : SvcCall → AliasState
  | .getAlias _ => st
  | .updateAlias a v =>
    if a = "live" then { st with live := v, liveRouting := none }
    else if a = "previous" then { st with previous := v }
    else if a = "latest" then { st with latest := v }
    else st
  | .configureCanary a m c w =>
    if a = "live" then { st with live := m, liveRouting := some (c, w) }
    else st

/-- Result of one command invocation: final alias state, process exit code,
the ordered trace of attempted service calls, warnings printed, the sleeps
performed, and the rollback log file contents after the run. -/
structure CmdResult where
  state : AliasState
  exitCode : Nat
  calls : List SvcCall := []
  warnings : List String := []
  sleeps : List Int := []
  logOut : List String := []
deriving Repr

/-! ### cmd/strategy.go : the canary strategy table -/

/-- Go `type CanaryStrategy string`. -/
abbrev CanaryStrategy : Type := String

def Canary0 : CanaryStrategy := "canary0"

def Canary10 : CanaryStrategy := "canary10"

def Canary25 : CanaryStrategy := "canary25"

def Canary50 : CanaryStrategy := "canary50"

def Canary75 : CanaryStrategy := "canary75"

def Canary100 : CanaryStrategy := "canary100"

/-- `AllStrategies` from `cmd/strategy.go`. -/
def AllStrategies : List CanaryStrategy :=
  [Canary0, Canary10, Canary25, Canary50, Canary75, Canary100]

/-- `CanaryStrategy.Weight` from `cmd/strategy.go`: the switch over the six
known strategies; the `default` arm returns `0`. -/
def CanaryStrategy.Weight (s : CanaryStrategy) : ℚ :=
  if s = Canary0 then 0
  else if s = Canary10 then 10/100
  else if s = Canary25 then 25/100
  else if s = Canary50 then 50/100
  else if s = Canary75 then 75/100
  else if s = Canary100 then 1
  else 0

/-- `CanaryStrategy.IsValid` from `cmd/strategy.go`. -/
def CanaryStrategy.IsValid (s : CanaryStrategy) : Bool :=
  decide (s = Canary0 ∨ s = Canary10 ∨ s = Canary25 ∨ s = Canary50 ∨
          s = Canary75 ∨ s = Canary100)

/-- `CanaryStrategy.NextStrategy` from `cmd/strategy.go`: the successor in the
fixed order, saturating at `canary100`; invalid input maps to `canary10`. -/
def CanaryStrategy.NextStrategy (s : CanaryStrategy) : CanaryStrategy :=
  if s = Canary0 then Canary10
  else if s = Canary10 then Canary25
  else if s = Canary25 then Canary50
  else if s = Canary50 then Canary75
  else if s = Canary75 then Canary100
  else if s = Canary100 then Canary100
  else Canary10

/-! ### cmd/canary.go : runCanary (the canary0-aware revision) -/

/-- `runCanary`: validate the strategy locally, read the `live` and `latest`
alias versions, reject when `live == latest` unless the strategy is `canary0`,
then either clear the routing (`canary0`, via `UpdateAlias` on `live` at its
current version) or install the routing entry (`ConfigureCanary` at the
strategy's weight).  `canary100` additionally prints a warning. -/
def runCanary (st : AliasState) (strategyArg : CanaryStrategy) (env : SvcEnv) :
    CmdResult :=
  if strategyArg.IsValid = false then
    { state := st, exitCode := exitcode.ParamError, calls := [] }
  else
    let c1 := SvcCall.getAlias "live"
    match env c1 with
    | some e => { state := st, exitCode := classifyError (some e), calls := [c1] }
    | none =>
      let liveV := st.live
      let c2 := SvcCall.getAlias "latest"
      match env c2 with
      | some e =>
        { state := st, exitCode := classifyError (some e), calls := [c1, c2] }
      | none =>
        let latestV := st.latest
        if liveV = latestV ∧ strategyArg ≠ Canary0 then
          { state := st, exitCode := exitcode.ParamError, calls := [c1, c2] }
        else
          let ws := if strategyArg = Canary100
                    then ["canary100 不会更新 previous 别名"] else []
          if strategyArg = Canary0 then
            let c3 := SvcCall.updateAlias "live" liveV
            match env c3 with
            | some e =>
              { state := st, exitCode := classifyError (some e),
                calls := [c1, c2, c3], warnings := ws }
            | none =>
              { state := applyWrite st c3, exitCode := exitcode.Success,
                calls := [c1, c2, c3], warnings := ws }
          else
            let c3 := SvcCall.configureCanary "live" liveV latestV
                        strategyArg.Weight
            match env c3 with
            | some e =>
              { state := st, exitCode := classifyError (some e),
                calls := [c1, c2, c3], warnings := ws }
            | none =>
              { state := applyWrite st c3, exitCode := exitcode.Success,
                calls := [c1, c2, c3], warnings := ws }

/-! ### cmd/promote.go : runPromote -/

/-- `runPromote`: read `live` and `latest`; if equal, report "nothing to
promote" and return success without any further call; otherwise optionally
check for an active canary (a read that only selects a warning), then update
`previous` to the old live version and finally `live` to the latest version,
exiting with the classified error code if either write fails. -/
def runPromote (st : AliasState) (skipCanary : Bool) (env : SvcEnv) : CmdResult :=
  let c1 := SvcCall.getAlias "live"
  match env c1 with
  | some e => { state := st, exitCode := classifyError (some e), calls := [c1] }
  | none =>
    let liveV := st.live
    let c2 := SvcCall.getAlias "latest"
    match env c2 with
    | some e =>
      { state := st, exitCode := classifyError (some e), calls := [c1, c2] }
    | none =>
      let latestV := st.latest
      if liveV = latestV then
        { state := st, exitCode := exitcode.Success, calls := [c1, c2],
          warnings := ["没有新版本需要切换，跳过 promote 操作"] }
      else
        let checkCalls := if skipCanary then [] else [SvcCall.getAlias "live"]
        let canaryOn := if skipCanary then false
                        else match env (SvcCall.getAlias "live") with
                          | some _ => false
                          | none => st.liveRouting.isSome
        let ws := if skipCanary then []
                  else if canaryOn then []
                  else ["没有活跃的灰度配置，建议先执行 canary 命令进行灰度验证"]
        let c4 := SvcCall.updateAlias "previous" liveV
        match env c4 with
        | some e =>
          { state := st, exitCode := classifyError (some e),
            calls := [c1, c2] ++ checkCalls ++ [c4], warnings := ws }
        | none =>
          let st1 := applyWrite st c4
          let c5 := SvcCall.updateAlias "live" latestV
          match env c5 with
          | some e =>
            { state := st1, exitCode := classifyError (some e),
              calls := [c1, c2] ++ checkCalls ++ [c4, c5], warnings := ws }
          | none =>
            { state := applyWrite st1 c5, exitCode := exitcode.Success,
              calls := [c1, c2] ++ checkCalls ++ [c4, c5], warnings := ws }

/-! ### The rollback command : RollbackLog and runRollback -/

/-- `RollbackLog` — one audit entry, from the rollback command. -/
structure RollbackLog where
  timestamp : String
  envName : String
  fromVersion : String
  toVersion : String
  reason : String
  operator : String
deriving DecidableEq, Repr

/-- `RollbackLog.Format`: `[ts] ENV=e FROM_VERSION=f TO_VERSION=t
REASON="r" OPERATOR=o`. -/
def RollbackLog.Format (l : RollbackLog) : String :=
  "[" ++ l.timestamp ++ "] ENV=" ++ l.envName ++
  " FROM_VERSION=" ++ l.fromVersion ++ " TO_VERSION=" ++ l.toVersion ++
  " REASON=\"" ++ l.reason ++ "\" OPERATOR=" ++ l.operator

/-- `runRollback`: read `live` and `previous`; if equal, success without any
write and without touching the log; otherwise update `live` to the previous
version (clearing routing), then also update `latest` to the previous version,
then append one audit entry to the log file — an append failure only warns and
the command still ends in success.  `envArg` is the `--env` value, `reasonArg`
the `--reason` flag (empty defaults to a fixed text), `userVar` the `USER`
environment variable (empty defaults to `unknown`), `nowTs` the formatted
current time, and `logWriteOk` tells whether the file append succeeds. -/
def runRollback (st : AliasState) (logFile : List String)
    (envArg reasonArg userVar nowTs : String) (logWriteOk : Bool)
    (env : SvcEnv) : CmdResult :=
  let c1 := SvcCall.getAlias "live"
  match env c1 with
  | some e =>
    { state := st, exitCode := classifyError (some e), calls := [c1],
      logOut := logFile }
  | none =>
    let liveV := st.live
    let c2 := SvcCall.getAlias "previous"
    match env c2 with
    | some e =>
      { state := st, exitCode := classifyError (some e), calls := [c1, c2],
        logOut := logFile }
    | none =>
      let previousV := st.previous
      if liveV = previousV then
        { state := st, exitCode := exitcode.Success, calls := [c1, c2],
          logOut := logFile }
      else
        let c3 := SvcCall.updateAlias "live" previousV
        match env c3 with
        | some e =>
          { state := st, exitCode := classifyError (some e),
            calls := [c1, c2, c3], logOut := logFile }
        | none =>
          let st1 := applyWrite st c3
          let c4 := SvcCall.updateAlias "latest" previousV
          match env c4 with
          | some e =>
            { state := st1, exitCode := classifyError (some e),
              calls := [c1, c2, c3, c4], logOut := logFile }
          | none =>
            let st2 := applyWrite st1 c4
            let entry : RollbackLog :=
              { timestamp := nowTs, envName := envArg,
                fromVersion := liveV, toVersion := previousV,
                reason := if reasonArg = "" then "未指定原因" else reasonArg,
                operator := if userVar = "" then "unknown" else userVar }
            if logWriteOk then
              { state := st2, exitCode := exitcode.Success,
                calls := [c1, c2, c3, c4],
                logOut := logFile ++ [entry.Format] }
            else
              { state := st2, exitCode := exitcode.Success,
                calls := [c1, c2, c3, c4],
                warnings := ["无法写入回退日志"],
                logOut := logFile }

/-! ### cmd/auto.go : runAuto (the `--percent` revision) -/

/-- The Go loop `for pct := step; pct < 100; pct += step`, with enough fuel for
every `step ≥ 1` (the loop body runs at most 99 times). -/
def autoStepsFrom (step : Nat) : Nat → Nat → List Nat
  | 0, _ => []
  | fuel + 1, pct =>
    if pct < 100 then pct :: autoStepsFrom step fuel (pct + step) else []

/-- The canary percentages `runAuto` walks through before its final promote. -/
def autoSteps (step : Nat) : List Nat := autoStepsFrom step 100 step

/-- The canary-progression loop of `runAuto`: configure each percentage in
turn, sleeping `w` after each successful step; a failing step aborts the
sequence with the classified error code and no further call. Returns the state
after the applied writes, the attempted calls, the sleeps performed, and
`some code` if a step failed. -/
def runAutoLoop (env : SvcEnv) (liveV latestV : String) (w : Int)
    (st : AliasState) : List Nat →
    AliasState × List SvcCall × List Int × Option Nat
  | [] => (st, [], [], none)
  | pct :: rest =>
    let c := SvcCall.configureCanary "live" liveV latestV ((pct : ℚ) / 100)
    match env c with
    | some e => (st, [c], [], some (classifyError (some e)))
    | none =>
      let next := runAutoLoop env liveV latestV w (applyWrite st c) rest
      (next.1, c :: next.2.1, w :: next.2.2.1, next.2.2.2)

/-- `runAuto`: validate `--percent` (1–100) locally before any service call
(the `--wait` duration is not validated anywhere), read `live` and `latest`,
reject when they coincide, then run the canary progression over `autoSteps`
and finish with the inlined promote (update `previous` to the old live
version, then `live` to the latest version, clearing routing). -/
def runAuto (st : AliasState) (stepPct : Nat) (w : Int) (env : SvcEnv) :
    CmdResult :=
  if stepPct < 1 ∨ 100 < stepPct then
    { state := st, exitCode := exitcode.ParamError, calls := [] }
  else
    let c1 := SvcCall.getAlias "live"
    match env c1 with
    | some e => { state := st, exitCode := classifyError (some e), calls := [c1] }
    | none =>
      let liveV := st.live
      let c2 := SvcCall.getAlias "latest"
      match env c2 with
      | some e =>
        { state := st, exitCode := classifyError (some e), calls := [c1, c2] }
      | none =>
        let latestV := st.latest
        if liveV = latestV then
          { state := st, exitCode := exitcode.ParamError, calls := [c1, c2] }
        else
          let loop := runAutoLoop env liveV latestV w st (autoSteps stepPct)
          match loop.2.2.2 with
          | some code =>
            { state := loop.1, exitCode := code,
              calls := [c1, c2] ++ loop.2.1, sleeps := loop.2.2.1 }
          | none =>
            let c4 := SvcCall.updateAlias "previous" liveV
            match env c4 with
            | some e =>
              { state := loop.1, exitCode := classifyError (some e),
                calls := [c1, c2] ++ loop.2.1 ++ [c4], sleeps := loop.2.2.1 }
            | none =>
              let st1 := applyWrite loop.1 c4
              let c5 := SvcCall.updateAlias "live" latestV
              match env c5 with
              | some e =>
                { state := st1, exitCode := classifyError (some e),
                  calls := [c1, c2] ++ loop.2.1 ++ [c4, c5],
                  sleeps := loop.2.2.1 }
              | none =>
                { state := applyWrite st1 c5, exitCode := exitcode.Success,
                  calls := [c1, c2] ++ loop.2.1 ++ [c4, c5],
                  sleeps := loop.2.2.1 }

/-! ### internal/aws/lambda.go : CheckCanaryActive, and the deploy gate -/

/-- The raw `GetAlias` answer `CheckCanaryActive` inspects: an error, or the
alias's function version together with its `AdditionalVersionWeights`
routing entries. -/
def GetAliasAnswer : Type := Except (List Char) (String × List (String × ℚ))

/-- `CheckCanaryActive`: any read error yields `(false, "", 0)`; an absent or
empty routing map yields `(false, "", 0)`; otherwise the first routing entry
is reported as the active canary. -/
def CheckCanaryActive : GetAliasAnswer → Bool × String × ℚ
  | .error _ => (false, "", 0)
  | .ok (_, routing) =>
    match routing with
    | [] => (false, "", 0)
    | (v, w) :: _ => (true, v, w)

/-- The gate at the top of `runDeploy`: if `CheckCanaryActive` reports an
active canary, deploy stops with `ParamError` before building anything;
otherwise (`none`) it proceeds. -/
def deployCanaryGate (ans : GetAliasAnswer) : Option Nat :=
  if (CheckCanaryActive ans).1 = true then some exitcode.ParamError else none

/-- A service oracle on which every call succeeds except the update of the
`live` alias, which fails with error message `e` — the failure injection for
the promote non-atomicity analysis. -/
def liveWriteFails (e : List Char) : SvcEnv := fun c =>
  match c with
  | .updateAlias a _ => if a = "live" then some e else none
  | _ => none

/-! ## Helper lemmas -/

lemma any_containsSub_iff (l : List (List Char)) (m : List Char) :
    (l.any fun kw => containsSub m kw) = true ↔ ∃ kw ∈ l, kw <:+: m := by
  simp [List.any_eq_true, containsSub]

lemma weight_pos_ne_canary0 (s : CanaryStrategy) (h : 0 < s.Weight) :
    s ≠ Canary0 := by
  intro he
  subst he
  norm_num [CanaryStrategy.Weight] at h


/-- Claim C6: the error classifier is a total, deterministic, pure function
from error values to exactly one of success / network / resource-not-found /
generic.  A `nil` error classifies as success; any message containing a
network keyword case-insensitively classifies as network, even when a
resource-not-found keyword is also present; a message with a not-found
keyword but no network keyword classifies as resource-not-found; everything
else is the generic service error.  Being a Lean function, `classifyError`
is deterministic and pure by construction. -/
theorem classifyError_total_classification :
    classifyError none = exitcode.Success ∧
    (∀ msg : List Char,
      (∃ kw ∈ networkKeywords, kw <:+: lowerMsg msg) →
        classifyError (some msg) = exitcode.NetworkError) ∧
    (∀ msg : List Char,
      (∃ kw ∈ resourceNotFoundKeywords, kw <:+: lowerMsg msg) →
      (∀ kw ∈ networkKeywords, ¬ kw <:+: lowerMsg msg) →
        classifyError (some msg) = exitcode.ResourceNotFound) ∧
    (∀ msg : List Char,
      (∀ kw ∈ networkKeywords, ¬ kw <:+: lowerMsg msg) →
      (∀ kw ∈ resourceNotFoundKeywords, ¬ kw <:+: lowerMsg msg) →
        classifyError (some msg) = exitcode.AWSError) ∧
    (∀ e : Option (List Char),
      classifyError e = exitcode.Success ∨
      classifyError e = exitcode.NetworkError ∨
      classifyError e = exitcode.ResourceNotFound ∨
      classifyError e = exitcode.AWSError) := by
  refine ⟨rfl, ?_, ?_, ?_, ?_⟩
  · intro msg h
    have hn : (networkKeywords.any fun kw => containsSub (lowerMsg msg) kw) = true :=
      (any_containsSub_iff _ _).mpr h
    simp [classifyError, hn]
  · intro msg hr hn
    have hn' : (networkKeywords.any fun kw => containsSub (lowerMsg msg) kw) = false := by
      rw [Bool.eq_false_iff, Ne, any_containsSub_iff]
      rintro ⟨kw, hkw, hinf⟩
      exact hn kw hkw hinf
    have hr' : (resourceNotFoundKeywords.any fun kw => containsSub (lowerMsg msg) kw) = true :=
      (any_containsSub_iff _ _).mpr hr
    simp [classifyError, hn', hr']
  · intro msg hn hr
    have hn' : (networkKeywords.any fun kw => containsSub (lowerMsg msg) kw) = false := by
      rw [Bool.eq_false_iff, Ne, any_containsSub_iff]
      rintro ⟨kw, hkw, hinf⟩
      exact hn kw hkw hinf
    have hr' : (resourceNotFoundKeywords.any fun kw => containsSub (lowerMsg msg) kw) = false := by
      rw [Bool.eq_false_iff, Ne, any_containsSub_iff]
      rintro ⟨kw, hkw, hinf⟩
      exact hr kw hkw hinf
    simp [classifyError, hn', hr']
  · rintro (_ | msg)
    · exact Or.inl rfl
    · by_cases hn : (networkKeywords.any fun kw => containsSub (lowerMsg msg) kw) = true
      · exact Or.inr (Or.inl (by simp [classifyError, hn]))
      · by_cases hr : (resourceNotFoundKeywords.any fun kw => containsSub (lowerMsg msg) kw) = true
        · exact Or.inr (Or.inr (Or.inl (by simp [classifyError, hn, hr])))
        · exact Or.inr (Or.inr (Or.inr (by simp [classifyError, hn, hr])))


/-- Witness for C6 at a concrete message containing both a network keyword
and a resource-not-found keyword: the network class wins. -/
theorem classifyError_classification_witness :
    (∃ kw ∈ networkKeywords,
        kw <:+: lowerMsg ("Network error: alias not found").toList) ∧
    (∃ kw ∈ resourceNotFoundKeywords,
        kw <:+: lowerMsg ("Network error: alias not found").toList) ∧
    classifyError (some ("Network error: alias not found").toList) =
      exitcode.NetworkError :=
  ⟨by decide, by decide,
    classifyError_total_classification.2.1 _ (by decide)⟩

/-- Claim C9: on every read error, `CheckCanaryActive` reports no active
canary `(false, "", 0)`, and the deploy gate lets the deployment proceed
exactly as it would for a successfully read alias with no routing. -/
theorem checkCanary_error_permissive :
    ∀ e : List Char,
      CheckCanaryActive (.error e) = (false, "", 0) ∧
      deployCanaryGate (.error e) = none ∧
      ∀ fv : String, deployCanaryGate (.error e) = deployCanaryGate (.ok (fv, [])) := by
  intro e
  refine ⟨rfl, rfl, fun fv => rfl⟩

/-- Counterexample for C8: the claim says an unrecognized strategy maps to a
distinguishable "invalid" sentinel rather than the numeric weight 0, but
`Weight "bogus"` is the plain number 0 — exactly the weight of the explicit
0% strategy `canary0`. -/
theorem weight_sentinel_cex :
    CanaryStrategy.IsValid "bogus" = false ∧
    CanaryStrategy.Weight "bogus" = 0 ∧
    CanaryStrategy.Weight "bogus" = CanaryStrategy.Weight Canary0 := by
  decide

/-- Claim C8 (amended): for every input that is not one of the fixed canary
strategies, `Weight` returns the numeric weight 0 — the same value as the
explicit 0% strategy — so the weight alone does not distinguish them;
unrecognized strategies are distinguished by `IsValid` instead. -/
theorem weight_invalid_returns_zero :
    (∀ s : CanaryStrategy, s.IsValid = false → s.Weight = 0) ∧
    CanaryStrategy.IsValid Canary0 = true ∧ CanaryStrategy.Weight Canary0 = 0 := by
  refine ⟨?_, by decide, by decide⟩
  intro s h
  rw [CanaryStrategy.IsValid, decide_eq_false_iff_not] at h
  push_neg at h
  obtain ⟨h0, h10, h25, h50, h75, h100⟩ := h
  rw [CanaryStrategy.Weight, if_neg h0, if_neg h10, if_neg h25, if_neg h50,
    if_neg h75, if_neg h100]

/-- Witness for the amended C8 at the concrete invalid strategy `"bogus"`. -/
theorem weight_invalid_witness :
    CanaryStrategy.IsValid "bogus" = false ∧ CanaryStrategy.Weight "bogus" = 0 :=
  ⟨by decide, weight_invalid_returns_zero.1 "bogus" (by decide)⟩


/-- Claim C4: whenever `live == latest`, promote returns success as a no-op:
after its two reads it issues no update-alias call and leaves the whole alias
state — in particular the `previous` alias — unchanged. -/
theorem promote_noop_when_live_eq_latest :
    ∀ (st : AliasState) (sc : Bool) (env : SvcEnv),
      env (SvcCall.getAlias "live") = none →
      env (SvcCall.getAlias "latest") = none →
      st.live = st.latest →
      (runPromote st sc env).exitCode = exitcode.Success ∧
      (runPromote st sc env).calls =
        [SvcCall.getAlias "live", SvcCall.getAlias "latest"] ∧
      (runPromote st sc env).state = st := by
  intro st sc env h1 h2 heq
  simp [runPromote, h1, h2, heq]

/-- Claim C10: promote is not atomic across its two writes.  When
`live != latest` and the update of `previous` succeeds but the following
update of `live` fails, the run terminates with the classified service error
code while `previous` keeps its newly written version (the old live version);
the first write is never undone. -/
theorem promote_nonatomic_partial_write :
    ∀ (st : AliasState) (sc : Bool) (e : List Char),
      st.live ≠ st.latest →
      (runPromote st sc (liveWriteFails e)).exitCode = classifyError (some e) ∧
      (runPromote st sc (liveWriteFails e)).state.previous = st.live ∧
      (runPromote st sc (liveWriteFails e)).state.live = st.live ∧
      (runPromote st sc (liveWriteFails e)).state.latest = st.latest ∧
      (runPromote st sc (liveWriteFails e)).state.liveRouting = st.liveRouting ∧
      SvcCall.updateAlias "previous" st.live ∈ (runPromote st sc (liveWriteFails e)).calls := by
  intro st sc e hne
  simp [runPromote, liveWriteFails, hne, applyWrite]


/-- Witness for C4 at a concrete stable state `live = latest = 5`. -/
theorem promote_noop_witness :
    okEnv (SvcCall.getAlias "live") = none ∧
    okEnv (SvcCall.getAlias "latest") = none ∧
    (AliasState.mk "5" "4" "5" none).live = (AliasState.mk "5" "4" "5" none).latest ∧
    ((runPromote (AliasState.mk "5" "4" "5" none) false okEnv).exitCode = exitcode.Success ∧
     (runPromote (AliasState.mk "5" "4" "5" none) false okEnv).calls =
       [SvcCall.getAlias "live", SvcCall.getAlias "latest"] ∧
     (runPromote (AliasState.mk "5" "4" "5" none) false okEnv).state =
       AliasState.mk "5" "4" "5" none) :=
  ⟨rfl, rfl, rfl,
    promote_noop_when_live_eq_latest (AliasState.mk "5" "4" "5" none) false okEnv
      rfl rfl rfl⟩

/-- Witness for C10: with a "timeout" failure injected on the live update,
promote exits with the network error code and `previous` has advanced. -/
theorem promote_nonatomic_witness :
    (AliasState.mk "3" "2" "4" none).live ≠ (AliasState.mk "3" "2" "4" none).latest ∧
    ((runPromote (AliasState.mk "3" "2" "4" none) false
        (liveWriteFails ("timeout").toList)).exitCode =
      classifyError (some ("timeout").toList) ∧
     (runPromote (AliasState.mk "3" "2" "4" none) false
        (liveWriteFails ("timeout").toList)).state.previous = "3" ∧
     (runPromote (AliasState.mk "3" "2" "4" none) false
        (liveWriteFails ("timeout").toList)).state.live = "3" ∧
     (runPromote (AliasState.mk "3" "2" "4" none) false
        (liveWriteFails ("timeout").toList)).state.latest = "4" ∧
     (runPromote (AliasState.mk "3" "2" "4" none) false
        (liveWriteFails ("timeout").toList)).state.liveRouting = none ∧
     SvcCall.updateAlias "previous" "3" ∈
       (runPromote (AliasState.mk "3" "2" "4" none) false
         (liveWriteFails ("timeout").toList)).calls) :=
  ⟨by decide,
    promote_nonatomic_partial_write (AliasState.mk "3" "2" "4" none) false
      ("timeout").toList (by decide)⟩

/-- Claim C5: whenever `live == previous`, rollback returns success as a
no-op: no alias is mutated and the rollback log file is unchanged. -/
theorem rollback_noop_when_live_eq_previous :
    ∀ (st : AliasState) (logFile : List String)
      (envArg reasonArg userVar nowTs : String) (logWriteOk : Bool) (env : SvcEnv),
      env (SvcCall.getAlias "live") = none →
      env (SvcCall.getAlias "previous") = none →
      st.live = st.previous →
      runRollback st logFile envArg reasonArg userVar nowTs logWriteOk env =
        { state := st, exitCode := exitcode.Success,
          calls := [SvcCall.getAlias "live", SvcCall.getAlias "previous"],
          logOut := logFile } := by
  intro st logFile envArg reasonArg userVar nowTs logWriteOk env h1 h2 heq
  simp [runRollback, h1, h2, heq]


/-- Claim C3: whenever `live != previous` (and the writes succeed), rollback
sets `live` to the previous version with routing cleared, also sets `latest`
to the previous version, and appends exactly one audit entry; a failing log
write does not change the outcome — the command still ends in success with
only a warning, and the log file is left as it was. -/
theorem rollback_updates_and_log_nonfatal :
    ∀ (st : AliasState) (logFile : List String)
      (envArg reasonArg userVar nowTs : String) (logWriteOk : Bool) (env : SvcEnv),
      env (SvcCall.getAlias "live") = none →
      env (SvcCall.getAlias "previous") = none →
      env (SvcCall.updateAlias "live" st.previous) = none →
      env (SvcCall.updateAlias "latest" st.previous) = none →
      st.live ≠ st.previous →
      (runRollback st logFile envArg reasonArg userVar nowTs logWriteOk env).state =
        { live := st.previous, previous := st.previous, latest := st.previous,
          liveRouting := none } ∧
      (runRollback st logFile envArg reasonArg userVar nowTs logWriteOk env).exitCode =
        exitcode.Success ∧
      (logWriteOk = true →
        (runRollback st logFile envArg reasonArg userVar nowTs logWriteOk env).logOut =
          logFile ++ [RollbackLog.Format
            { timestamp := nowTs, envName := envArg,
              fromVersion := st.live, toVersion := st.previous,
              reason := if reasonArg = "" then "未指定原因" else reasonArg,
              operator := if userVar = "" then "unknown" else userVar }] ∧
        (runRollback st logFile envArg reasonArg userVar nowTs logWriteOk env).warnings = []) ∧
      (logWriteOk = false →
        (runRollback st logFile envArg reasonArg userVar nowTs logWriteOk env).logOut =
          logFile ∧
        (runRollback st logFile envArg reasonArg userVar nowTs logWriteOk env).warnings =
          ["无法写入回退日志"]) := by
  intro st logFile envArg reasonArg userVar nowTs logWriteOk env h1 h2 h3 h4 hne
  rcases logWriteOk with _ | _
  · simp [runRollback, h1, h2, h3, h4, hne, applyWrite]
  · simp [runRollback, h1, h2, h3, h4, hne, applyWrite]


/-- Claim C2: when `live == latest`, requesting `canary0` (weight 0)
succeeds and clears any routing entry on the live alias, while every valid
strategy of positive weight is rejected with exit code 1 after the two reads
and before any alias mutation. -/
theorem canary_zero_clear_vs_positive_reject :
    ∀ (st : AliasState) (env : SvcEnv),
      env (SvcCall.getAlias "live") = none →
      env (SvcCall.getAlias "latest") = none →
      env (SvcCall.updateAlias "live" st.live) = none →
      st.live = st.latest →
      (runCanary st Canary0 env =
        { state := { st with liveRouting := none },
          exitCode := exitcode.Success,
          calls := [SvcCall.getAlias "live", SvcCall.getAlias "latest",
                    SvcCall.updateAlias "live" st.live] }) ∧
      (∀ s : CanaryStrategy, s.IsValid = true → 0 < s.Weight →
        runCanary st s env =
          { state := st, exitCode := exitcode.ParamError,
            calls := [SvcCall.getAlias "live", SvcCall.getAlias "latest"] }) := by
  intro st env h1 h2 h3 heq
  constructor
  · have h3' := h3
    rw [heq] at h3'
    have hv : Canary0.IsValid = true := by decide
    have hc : Canary0 ≠ Canary100 := by decide
    simp [runCanary, h1, h2, h3, h3', heq, applyWrite, hv, hc]
  · intro s hv hw
    have hne : s ≠ Canary0 := weight_pos_ne_canary0 s hw
    rw [runCanary, hv]
    simp [h1, h2, heq, hne]


lemma autoStepsFrom_nil (s : Nat) :
    ∀ (fuel pct : Nat), ¬ pct < 100 → autoStepsFrom s fuel pct = [] := by
  intro fuel pct h
  cases fuel with
  | zero => rfl
  | succ fuel => rw [autoStepsFrom, if_neg h]

lemma autoStepsFrom_lt (s : Nat) :
    ∀ (fuel pct : Nat), ∀ x ∈ autoStepsFrom s fuel pct, x < 100 := by
  intro fuel
  induction fuel with
  | zero =>
    intro pct x hx
    simp [autoStepsFrom] at hx
  | succ fuel ih =>
    intro pct x hx
    rw [autoStepsFrom] at hx
    by_cases h : pct < 100
    · rw [if_pos h] at hx
      rcases List.mem_cons.mp hx with h' | h'
      · omega
      · exact ih _ x h'
    · rw [if_neg h] at hx
      simp at hx

lemma autoStepsFrom_eq (s : Nat) (hs : 1 ≤ s) :
    ∀ (fuel pct : Nat), pct < 100 → (99 - pct) / s + 1 ≤ fuel →
      autoStepsFrom s fuel pct =
        (List.range ((99 - pct) / s + 1)).map (fun j => pct + j * s) := by
  intro fuel
  induction fuel with
  | zero =>
    intro pct hlt hf
    exact absurd hf (Nat.not_succ_le_zero _)
  | succ fuel ih =>
    intro pct hlt hf
    rw [autoStepsFrom, if_pos hlt]
    by_cases hnext : pct + s < 100
    · have hs99 : s ≤ 99 - pct := by omega
      have hdiv : (99 - pct) / s = (99 - pct - s) / s + 1 :=
        Nat.div_eq_sub_div hs hs99
      have h2 : 99 - (pct + s) = 99 - pct - s := by omega
      have hfuel2 : (99 - (pct + s)) / s + 1 ≤ fuel := by
        rw [h2]
        rw [hdiv] at hf
        generalize hk : (99 - pct - s) / s = k at hf ⊢
        omega
      have hsplit :
          (List.range ((99 - pct - s) / s + 1 + 1)).map (fun j => pct + j * s) =
            pct :: (List.range ((99 - pct - s) / s + 1)).map
              (fun j => pct + s + j * s) := by
        rw [List.range_succ_eq_map, List.map_cons, List.map_map]
        simp only [Nat.zero_mul, Nat.add_zero]
        have hfun : ((fun j => pct + j * s) ∘ Nat.succ) =
            fun j => pct + s + j * s := by
          funext j
          simp only [Function.comp_apply, Nat.succ_eq_add_one]
          ring
        rw [hfun]
      rw [hdiv, hsplit, ih (pct + s) hnext hfuel2, h2]
    · have hdiv0 : (99 - pct) / s = 0 := Nat.div_eq_of_lt (by omega)
      rw [hdiv0, autoStepsFrom_nil s fuel (pct + s) (by omega)]
      simp [List.range_succ]

lemma autoSteps_eq (s : Nat) (h1 : 1 ≤ s) (h99 : s ≤ 99) :
    autoSteps s = (List.range (99 / s)).map (fun k => (k + 1) * s) := by
  have hlt : s < 100 := by omega
  have hfuel : (99 - s) / s + 1 ≤ 100 := by
    have := Nat.div_le_self (99 - s) s
    omega
  rw [autoSteps, autoStepsFrom_eq s h1 100 s hlt hfuel]
  rw [Nat.div_eq_sub_div h1 h99]
  congr 1
  funext j
  ring

lemma autoSteps_lt (s : Nat) : ∀ x ∈ autoSteps s, x < 100 :=
  fun x hx => autoStepsFrom_lt s 100 s x hx


lemma runAutoLoop_ok (lv lt : String) (w : Int) :
    ∀ (l : List Nat) (st : AliasState),
      runAutoLoop okEnv lv lt w st l =
        (l.foldl (fun (t : AliasState) (p : Nat) => applyWrite t
            (SvcCall.configureCanary "live" lv lt ((p : ℚ) / 100))) st,
         l.map (fun (p : Nat) => SvcCall.configureCanary "live" lv lt ((p : ℚ) / 100)),
         l.map (fun _ => w), none) := by
  intro l
  induction l with
  | nil => intro st; rfl
  | cons p rest ih =>
    intro st
    simp [runAutoLoop, okEnv, ih]

lemma loop_foldl_previous_latest (lv lt : String) :
    ∀ (l : List Nat) (st : AliasState),
      (l.foldl (fun (t : AliasState) (p : Nat) => applyWrite t
          (SvcCall.configureCanary "live" lv lt ((p : ℚ) / 100))) st).previous =
        st.previous ∧
      (l.foldl (fun (t : AliasState) (p : Nat) => applyWrite t
          (SvcCall.configureCanary "live" lv lt ((p : ℚ) / 100))) st).latest =
        st.latest := by
  intro l
  induction l with
  | nil => intro st; exact ⟨rfl, rfl⟩
  | cons p rest ih =>
    intro st
    rw [List.foldl_cons]
    have h := ih (applyWrite st (SvcCall.configureCanary "live" lv lt ((p : ℚ) / 100)))
    simpa [applyWrite] using h

/-- Claim C1: for every step `s` with `1 ≤ s ≤ 99` and `live ≠ latest`, the
auto operation applies canary weights exactly `s, 2s, 3s, …` for all
multiples strictly below 100 percent, and then performs the final cutover via
the inlined promote — `previous` becomes the old live version, `live` becomes
the latest version with routing cleared — never via an explicit canary step
at weight 1. -/
theorem auto_weight_sequence_and_promote :
    ∀ (st : AliasState) (s : Nat) (w : Int),
      1 ≤ s → s ≤ 99 → st.live ≠ st.latest →
      autoSteps s = (List.range (99 / s)).map (fun k => (k + 1) * s) ∧
      (∀ p ∈ autoSteps s, p < 100) ∧
      runAuto st s w okEnv =
        { state := { live := st.latest, previous := st.live,
                     latest := st.latest, liveRouting := none },
          exitCode := exitcode.Success,
          calls := [SvcCall.getAlias "live", SvcCall.getAlias "latest"] ++
            (autoSteps s).map (fun (p : Nat) =>
              SvcCall.configureCanary "live" st.live st.latest ((p : ℚ) / 100)) ++
            [SvcCall.updateAlias "previous" st.live,
             SvcCall.updateAlias "live" st.latest],
          sleeps := (autoSteps s).map (fun _ => w) } ∧
      SvcCall.configureCanary "live" st.live st.latest 1 ∉
        (runAuto st s w okEnv).calls := by
  intro st s w h1 h99 hne
  have hval : ¬ (s < 1 ∨ 100 < s) := by omega
  have hloop := runAutoLoop_ok st.live st.latest w (autoSteps s) st
  have hlat := (loop_foldl_previous_latest st.live st.latest (autoSteps s) st).2
  have hrun : runAuto st s w okEnv =
      { state := { live := st.latest, previous := st.live,
                   latest := st.latest, liveRouting := none },
        exitCode := exitcode.Success,
        calls := [SvcCall.getAlias "live", SvcCall.getAlias "latest"] ++
          (autoSteps s).map (fun (p : Nat) =>
            SvcCall.configureCanary "live" st.live st.latest ((p : ℚ) / 100)) ++
          [SvcCall.updateAlias "previous" st.live,
           SvcCall.updateAlias "live" st.latest],
        sleeps := (autoSteps s).map (fun _ => w) } := by
    have hval2 : ¬ (s = 0 ∨ 100 < s) := by omega
    simp [applyWrite] at hlat
    simp [runAuto, okEnv, hne, hloop, applyWrite, hlat, hval2]
  refine ⟨autoSteps_eq s h1 h99, autoSteps_lt s, hrun, ?_⟩
  intro hmem
  rw [hrun] at hmem
  simp at hmem
  obtain ⟨p, hp, hdiv⟩ := hmem
  have hlt := autoSteps_lt s p hp
  have hq : (p : ℚ) = 100 := by
    field_simp at hdiv
    exact_mod_cast hdiv
  have hp100 : p = 100 := by exact_mod_cast hq
  omega


/-- Counterexample for C7: with `wait = 0` (not strictly positive) the auto
run is not rejected — it succeeds and contacts the alias service, refuting
the claim that a non-positive wait is rejected locally. -/
theorem auto_wait_not_validated_cex :
    (runAuto (AliasState.mk "1" "0" "2" none) 10 0 okEnv).exitCode =
      exitcode.Success ∧
    SvcCall.getAlias "live" ∈
      (runAuto (AliasState.mk "1" "0" "2" none) 10 0 okEnv).calls := by
  decide

/-- Claim C7 (amended): the auto operation validates the step percentage
locally before any service call — a step outside 1–100 is rejected with exit
code 1 and an empty service-call trace — but the wait duration is not
validated: a non-positive wait is accepted and the run proceeds normally. -/
theorem auto_validation_amended :
    (∀ (st : AliasState) (s : Nat) (w : Int) (env : SvcEnv),
      (s < 1 ∨ 100 < s) →
      runAuto st s w env =
        { state := st, exitCode := exitcode.ParamError, calls := [] }) ∧
    (∀ (st : AliasState) (s : Nat) (w : Int),
      1 ≤ s → s ≤ 100 → st.live ≠ st.latest → w ≤ 0 →
      (runAuto st s w okEnv).exitCode = exitcode.Success) := by
  constructor
  · intro st s w env h
    rw [runAuto, if_pos h]
  · intro st s w h1 h100 hne hw
    have hval2 : ¬ (s = 0 ∨ 100 < s) := by omega
    have hloop := runAutoLoop_ok st.live st.latest w (autoSteps s) st
    simp [runAuto, okEnv, hne, hloop, hval2]

/-- Witness for the amended C7: step 0 is rejected without service contact;
step 25 with wait 0 runs to success. -/
theorem auto_validation_witness :
    ((0 : Nat) < 1 ∨ 100 < (0 : Nat)) ∧
    runAuto (AliasState.mk "1" "0" "2" none) 0 5 okEnv =
      { state := AliasState.mk "1" "0" "2" none,
        exitCode := exitcode.ParamError, calls := [] } ∧
    ((0 : Int) ≤ 0) ∧
    (runAuto (AliasState.mk "1" "0" "2" none) 25 0 okEnv).exitCode =
      exitcode.Success :=
  ⟨by decide,
   auto_validation_amended.1 (AliasState.mk "1" "0" "2" none) 0 5 okEnv
     (by decide),
   by decide,
   auto_validation_amended.2 (AliasState.mk "1" "0" "2" none) 25 0
     (by decide) (by decide) (by decide) (by decide)⟩

/-- Witness for C1 at step 25: the weight sequence is [25%, 50%, 75%]
followed by the promote writes; step 30 gives [30%, 60%, 90%]. -/
theorem auto_weight_sequence_witness :
    (1 : Nat) ≤ 25 ∧ (25 : Nat) ≤ 99 ∧
    (AliasState.mk "3" "2" "4" none).live ≠ (AliasState.mk "3" "2" "4" none).latest ∧
    autoSteps 25 = [25, 50, 75] ∧
    (runAuto (AliasState.mk "3" "2" "4" none) 25 60 okEnv).state =
      AliasState.mk "4" "3" "4" none ∧
    (runAuto (AliasState.mk "3" "2" "4" none) 25 60 okEnv).exitCode =
      exitcode.Success ∧
    (runAuto (AliasState.mk "3" "2" "4" none) 25 60 okEnv).calls =
      [SvcCall.getAlias "live", SvcCall.getAlias "latest",
        SvcCall.configureCanary "live" "3" "4" (((25 : Nat) : ℚ) / 100),
        SvcCall.configureCanary "live" "3" "4" (((50 : Nat) : ℚ) / 100),
        SvcCall.configureCanary "live" "3" "4" (((75 : Nat) : ℚ) / 100),
        SvcCall.updateAlias "previous" "3", SvcCall.updateAlias "live" "4"] ∧
    (runAuto (AliasState.mk "3" "2" "4" none) 25 60 okEnv).sleeps =
      [60, 60, 60] ∧
    autoSteps 30 = [30, 60, 90] := by
  have h := auto_weight_sequence_and_promote (AliasState.mk "3" "2" "4" none)
    25 60 (by decide) (by decide) (by decide)
  have hsteps : autoSteps 25 = [25, 50, 75] := by decide
  refine ⟨by decide, by decide, by decide, hsteps, ?_, ?_, ?_, ?_, by decide⟩
  · rw [h.2.2.1]
  · rw [h.2.2.1]
  · rw [h.2.2.1]
    show ([SvcCall.getAlias "live", SvcCall.getAlias "latest"] ++
      (autoSteps 25).map (fun (p : Nat) =>
        SvcCall.configureCanary "live" "3" "4" ((p : ℚ) / 100)) ++
      [SvcCall.updateAlias "previous" "3", SvcCall.updateAlias "live" "4"]) = _
    rw [hsteps]
    rfl
  · rw [h.2.2.1]
    show (autoSteps 25).map (fun _ => (60 : Int)) = _
    rw [hsteps]
    rfl

/-- Witness for C2 at a concrete stable-but-routed state: `canary0` clears
the routing and succeeds, `canary50` is rejected with exit code 1. -/
theorem canary_zero_clear_witness :
    (AliasState.mk "3" "2" "3" (some ("9", 1/2))).live =
      (AliasState.mk "3" "2" "3" (some ("9", 1/2))).latest ∧
    runCanary (AliasState.mk "3" "2" "3" (some ("9", 1/2))) Canary0 okEnv =
      { state := AliasState.mk "3" "2" "3" none, exitCode := exitcode.Success,
        calls := [SvcCall.getAlias "live", SvcCall.getAlias "latest",
                  SvcCall.updateAlias "live" "3"] } ∧
    runCanary (AliasState.mk "3" "2" "3" (some ("9", 1/2))) Canary50 okEnv =
      { state := AliasState.mk "3" "2" "3" (some ("9", 1/2)),
        exitCode := exitcode.ParamError,
        calls := [SvcCall.getAlias "live", SvcCall.getAlias "latest"] } := by
  have h := canary_zero_clear_vs_positive_reject
    (AliasState.mk "3" "2" "3" (some ("9", 1/2))) okEnv rfl rfl rfl rfl
  have hw : 0 < Canary50.Weight := by
    have h50 : Canary50.Weight = 50 / 100 := rfl
    rw [h50]
    norm_num
  exact ⟨rfl, h.1, h.2 Canary50 (by decide) hw⟩

/-- Witness for C5 at the concrete state `live = previous = 5`. -/
theorem rollback_noop_witness :
    okEnv (SvcCall.getAlias "live") = none ∧
    okEnv (SvcCall.getAlias "previous") = none ∧
    (AliasState.mk "5" "5" "8" none).live = (AliasState.mk "5" "5" "8" none).previous ∧
    runRollback (AliasState.mk "5" "5" "8" none) ["x"] "test" "" "" "T" true okEnv =
      { state := AliasState.mk "5" "5" "8" none, exitCode := exitcode.Success,
        calls := [SvcCall.getAlias "live", SvcCall.getAlias "previous"],
        logOut := ["x"] } :=
  ⟨rfl, rfl, rfl,
    rollback_noop_when_live_eq_previous (AliasState.mk "5" "5" "8" none) ["x"]
      "test" "" "" "T" true okEnv rfl rfl rfl⟩

/-- Witness for C3 at a concrete canary state, exercising both the
successful log append and the degraded log-failure path. -/
theorem rollback_updates_witness :
    (AliasState.mk "7" "5" "9" (some ("9", 1/4))).live ≠
      (AliasState.mk "7" "5" "9" (some ("9", 1/4))).previous ∧
    (runRollback (AliasState.mk "7" "5" "9" (some ("9", 1/4))) ["old"] "prod" ""
        "" "T" true okEnv).state = AliasState.mk "5" "5" "5" none ∧
    (runRollback (AliasState.mk "7" "5" "9" (some ("9", 1/4))) ["old"] "prod" ""
        "" "T" true okEnv).logOut =
      ["old",
       "[T] ENV=prod FROM_VERSION=7 TO_VERSION=5 REASON=\"未指定原因\" OPERATOR=unknown"] ∧
    (runRollback (AliasState.mk "7" "5" "9" (some ("9", 1/4))) ["old"] "prod" ""
        "" "T" false okEnv).exitCode = exitcode.Success ∧
    (runRollback (AliasState.mk "7" "5" "9" (some ("9", 1/4))) ["old"] "prod" ""
        "" "T" false okEnv).logOut = ["old"] ∧
    (runRollback (AliasState.mk "7" "5" "9" (some ("9", 1/4))) ["old"] "prod" ""
        "" "T" false okEnv).warnings = ["无法写入回退日志"] := by
  have ht := rollback_updates_and_log_nonfatal
    (AliasState.mk "7" "5" "9" (some ("9", 1/4))) ["old"] "prod" "" "" "T" true
    okEnv rfl rfl rfl rfl (by decide)
  have hf := rollback_updates_and_log_nonfatal
    (AliasState.mk "7" "5" "9" (some ("9", 1/4))) ["old"] "prod" "" "" "T" false
    okEnv rfl rfl rfl rfl (by decide)
  refine ⟨by decide, ht.1, ?_, hf.2.1, (hf.2.2.2 rfl).1, (hf.2.2.2 rfl).2⟩
  rw [(ht.2.2.1 rfl).1]
  decide

end Lad
